import Mathlib

/-!
Shallow embedding of the `cargo_parser` repository (src/domain/parsing.py,
src/domain/cities.py, src/domain/models.py), used to check the claims of
the natural-language specification.

Modelling conventions:
* Python `dict.get(key)` on JSON payloads is modelled by `Option` fields of
  a structure; a missing key (or a JSON `null`) is `none`.
* A "falsy" JSON value guarded by `if not x:` is modelled by `none` for
  dicts/lists, and by `some []` for an explicitly empty list.
* Machine-level numbers appearing in JSON payloads are modelled by `Int`;
  no claim depends on float behaviour.
* The `asyncio` queue/worker machinery processes each enqueued item exactly
  once (one `queue.get` per item, `queue.join` waits for all `task_done`);
  counter updates and list appends are serialized by the single-threaded
  event loop, so a batch run is modelled as a left fold of the per-item
  worker body over the submitted list.
* Network I/O is modelled by a deterministic oracle (an environment record
  of functions from request bodies to responses).
-/

namespace CargoParser

/-! ## Python `uuid.UUID` (stdlib), as used via `UUID(hexstring)` -/

/-- Model of `uuid.UUID`: a 128-bit integer. -/
structure UUID where
  int : Nat
deriving Repr, DecidableEq

def hexDigit? (c : Char) : Option Nat :=
  if '0' ≤ c ∧ c ≤ '9' then some (c.toNat - 48)
  else if 'a' ≤ c ∧ c ≤ 'f' then some (c.toNat - 87)
  else if 'A' ≤ c ∧ c ≤ 'F' then some (c.toNat - 55)
  else none

/-- Python `int(s, 16)` on a pure hex-digit string (the only shape reaching it here). -/
def hexToNat? (cs : List Char) : Option Nat :=
  cs.foldl (fun acc c => acc.bind fun n => (hexDigit? c).map fun d => 16 * n + d) (some 0)

/-- Python `str.replace`, on a fuel budget (each step consumes at least one
character, so `s.length` steps always suffice): replace every
non-overlapping occurrence, left to right. -/
def listReplaceFuel (pat rep : List Char) : Nat → List Char → List Char
  | _, [] => []
  | 0, s => s
  | Nat.succ fuel, c :: rest =>
    if pat.isPrefixOf (c :: rest) ∧ pat ≠ [] then
      rep ++ listReplaceFuel pat rep fuel (rest.drop (pat.length - 1))
    else
      c :: listReplaceFuel pat rep fuel rest

/-- Python `str.replace`: replace every non-overlapping occurrence. -/
def listReplace (pat rep s : List Char) : List Char :=
  listReplaceFuel pat rep s.length s

def lbrace : Char := Char.ofNat 123
def rbrace : Char := Char.ofNat 125

/-- Python `str.strip(chars)`: drop the given characters from both ends. -/
def pyStrip (bad : List Char) (s : List Char) : List Char :=
  ((s.dropWhile (bad.contains ·)).reverse.dropWhile (bad.contains ·)).reverse

/-- Python `uuid.UUID(hex)` on a string argument:
`hex.replace('urn:','').replace('uuid:','').strip('\x7b\x7d').replace('-','')`,
then require exactly 32 hex digits and read them base 16 ( `none` = raise). -/
def pyUUID (s : String) : Option UUID :=
  let h := listReplace "uuid:".data [] (listReplace "urn:".data [] s.data)
  let h := (pyStrip [lbrace, rbrace] h).filter (· ≠ '-')
  if h.length = 32 then
    (hexToNat? h).bind fun n => if n < 2 ^ 128 then some ⟨n⟩ else none
  else none

def hexChar (n : Nat) : Char :=
  if n < 10 then Char.ofNat (48 + n) else Char.ofNat (87 + n)

def natToHex32 (n : Nat) : List Char :=
  (List.range 32).map fun i => hexChar (n / 16 ^ (31 - i) % 16)

/-- Python `str(uuid)`: canonical lowercase 8-4-4-4-12 form. -/
def uuidStr (u : UUID) : String :=
  let h := natToHex32 u.int
  ⟨h.take 8⟩ ++ "-" ++ ⟨(h.drop 8).take 4⟩ ++ "-" ++ ⟨(h.drop 12).take 4⟩
    ++ "-" ++ ⟨(h.drop 16).take 4⟩ ++ "-" ++ ⟨h.drop 20⟩

/-! ## Data model (src/domain/models.py) -/

/-- Embeds `models.Package`. -/
structure Package where
  height : Int
  length : Int
  width : Int
  weight : Int
deriving Repr, DecidableEq

/-- Embeds `models.ServiceArgument`. -/
structure ServiceArgument where
  name : String
  value : Int
deriving Repr, DecidableEq

/-- Embeds `models.RequestForService`. -/
structure RequestForService where
  «alias» : String
  arguments : List ServiceArgument
deriving Repr, DecidableEq

/-- Embeds `models.RequestForCargo` (validated field values; excluded-from-dump
fields included, since the parser reads them). -/
structure RequestForCargo where
  without_add_services : Int := 0
  service_id : Option UUID := none
  mode : String := "HOME-HOME"
  payer_type : String := "sender"
  currency_mark : String := "RUB"
  sender_city_id : UUID
  sender_city_name : String
  receiver_city_id : UUID
  receiver_city_name : String
  packages : List Package
  additional_services : List RequestForService := []
  duration_min : Option Int := none
  duration_max : Option Int := none
  cargo_type_descr : String
  tariff_description : String := ""
deriving Repr, DecidableEq

/-- Embeds `models.RequestForServiceId`. -/
structure RequestForServiceId where
  payer_type : String := "sender"
  currency_mark : String := "RUB"
  sender_city_id : UUID
  receiver_city_id : UUID
  packages : List Package
deriving Repr, DecidableEq

/-- Result of `RequestForCargo.model_dump(by_alias=True)`: aliased keys, `CustomUid`
serialized via `str`, `exclude=True` fields dropped. -/
structure CargoBody where
  withoutAdditionalServices : Int
  serviceId : Option String
  mode : String
  payerType : String
  currencyMark : String
  senderCityId : String
  receiverCityId : String
  packages : List Package
  additionalServices : List RequestForService
deriving Repr, DecidableEq

def RequestForCargo.model_dump (r : RequestForCargo) : CargoBody where
  withoutAdditionalServices := r.without_add_services
  serviceId := r.service_id.map uuidStr
  mode := r.mode
  payerType := r.payer_type
  currencyMark := r.currency_mark
  senderCityId := uuidStr r.sender_city_id
  receiverCityId := uuidStr r.receiver_city_id
  packages := r.packages
  additionalServices := r.additional_services

/-- Embeds `models.CalculatedService`. -/
structure CalculatedService where
  «alias» : String
  original_name : String
  total_cost : Int
deriving Repr, DecidableEq

/-- Embeds `models.Route`. -/
structure Route where
  city_from : String
  city_to : String
  delivery_price : Int
  total_cost : Int
  request : Option RequestForCargo := none
  services : List CalculatedService := []
  duration_min : Int
  duration_max : Int
  weight : Int
deriving Repr, DecidableEq

/-- Embeds `models.RequestsReport`. -/
structure RequestsReport where
  routes_total : Nat := 0
  routes_success : Nat := 0
  routes_fail : Nat := 0
  routes_fail_list : List RequestForCargo := []
deriving Repr, DecidableEq

/-- Embeds `models.CitiesReport`; note the field names are `cities_*`, while the
fail list field is `routes_fail_list`. -/
structure CitiesReport where
  cities_total : Nat := 0
  cities_success : Nat := 0
  cities_fail : Nat := 0
  routes_fail_list : List String := []
deriving Repr, DecidableEq

/-! ## Exceptions -/

/-- The distinguishable ways the worker bodies raise. -/
inductive PyErr where
  /-- an explicit `raise Exception(...)` on a falsy payload or a failed lookup -/
  | parseError
  /-- `raise` at the end of `_parse_service_id`: no suitable tariff found -/
  | noMatch
  /-- `TypeError`/`AttributeError` from using `None` (iterating, `.get`, `.replace`) -/
  | typeError
  /-- `ValueError` from `UUID(...)` or a pydantic validation failure -/
  | valueError
  /-- `IndexError` from `packages[0]` on an empty list -/
  | indexError
deriving Repr, DecidableEq

/-! ## Tariff-group responses and `_parse_service_id` (src/domain/parsing.py) -/

/-- One entry of a tariff group's `tariffs` list. -/
structure Tariff where
  mode : Option String
  shortDescription : Option String
  serviceId : Option String
  durationMin : Option Int
  durationMax : Option Int
deriving Repr, DecidableEq

/-- One tariff group of the estimate response's `data` list. -/
structure ServiceGroup where
  description : Option String
  tariffs : Option (List Tariff)
deriving Repr, DecidableEq

/-- JSON body answered by the service-id (estimate) endpoint. -/
structure ServiceIdResp where
  data : Option (List ServiceGroup)
deriving Repr, DecidableEq

/-- The inner-loop condition: `item.get('mode') == cargo_request.mode and
item.get('shortDescription') == cargo_request.tariff_description`. -/
def tariff_matches (req : RequestForCargo) (t : Tariff) : Bool :=
  t.mode == some req.mode && t.shortDescription == some req.tariff_description

/-- Semantics of `UUID(item.get('serviceId'))`: `None` raises `TypeError` (attribute access
on `None`), a malformed string raises `ValueError`. -/
def pyUUIDOfOpt : Option String → Except PyErr UUID
  | none => .error .typeError
  | some s =>
    match pyUUID s with
    | some u => .ok u
    | none => .error .valueError

/-- The double loop of `_parse_service_id` over the `data` list: skip groups
whose `description` differs from the request's `cargo_type_descr`; in a
matching group, iterate `tariffs` (raising if it is `None`) and return from
the first tariff satisfying `tariff_matches`. -/
def find_in_groups (req : RequestForCargo) :
    List ServiceGroup → Except PyErr (UUID × Option Int × Option Int)
  | [] => .error .noMatch
  | g :: rest =>
    if g.description ≠ some req.cargo_type_descr then
      find_in_groups req rest
    else
      match g.tariffs with
      | none => .error .typeError
      | some ts =>
        match ts.find? (tariff_matches req) with
        | some t =>
          match pyUUIDOfOpt t.serviceId with
          | .ok u => .ok (u, t.durationMin, t.durationMax)
          | .error e => .error e
        | none => find_in_groups req rest

/-- Pure core of `_parse_service_id`, given the decoded JSON response:
`data.get('data')` falsy raises, otherwise run the group search. -/
def find_service_id (req : RequestForCargo) (resp : ServiceIdResp) :
    Except PyErr (UUID × Option Int × Option Int) :=
  match resp.data with
  | none => .error .parseError
  | some [] => .error .parseError
  | some groups => find_in_groups req groups

/-- The POST body of `_parse_service_id` (the response oracle is keyed on it). -/
def serviceIdRequestOf (req : RequestForCargo) : RequestForServiceId where
  payer_type := req.payer_type
  currency_mark := req.currency_mark
  sender_city_id := req.sender_city_id
  receiver_city_id := req.receiver_city_id
  packages := req.packages

/-! ## Cargo (price) responses and `_extract_data_from_resp_dict` -/

structure PaymentDetail where
  totalCost : Option Int
deriving Repr, DecidableEq

/-- One entry of `calculatedAdditionalServices`. -/
structure AddService where
  «alias» : Option String
  original_name : Option String
  paymentDetail : Option PaymentDetail
deriving Repr, DecidableEq

/-- The `data` dict of the price response. -/
structure CargoDataDict where
  deliveryPrice : Option Int
  totalCost : Option Int
  calculatedAdditionalServices : Option (List AddService)
deriving Repr, DecidableEq

/-- JSON body answered by the price endpoint (`none` data = missing/falsy). -/
structure CargoResp where
  data : Option CargoDataDict
deriving Repr, DecidableEq

/-- Construction `models.CalculatedService(alias=..., original_name=...,
total_cost=item.get('paymentDetail').get('totalCost'))`: a `None`
`paymentDetail` raises `AttributeError`; `None` for a required (or
explicitly passed non-optional) field fails pydantic validation. -/
def mkCalculatedService (item : AddService) : Except PyErr CalculatedService :=
  match item.paymentDetail with
  | none => .error .typeError
  | some pd =>
    match item.«alias», item.original_name, pd.totalCost with
    | some a, some o, some c => .ok ⟨a, o, c⟩
    | _, _, _ => .error .valueError

def mkCalculatedServices : List AddService → Except PyErr (List CalculatedService)
  | [] => .ok []
  | item :: rest => do
    let c ← mkCalculatedService item
    let cs ← mkCalculatedServices rest
    pure (c :: cs)

/-- Method `_extract_data_from_resp_dict`: falsy `data` raises; build the services
list; `models.Route(...)` validation requires numeric `deliveryPrice`,
`totalCost` and durations, and `packages[0]` raises on an empty list. -/
def extract_data_from_resp_dict (cargoData : CargoResp) (req : RequestForCargo) :
    Except PyErr Route :=
  match cargoData.data with
  | none => .error .parseError
  | some cd => do
    let services ← mkCalculatedServices (cd.calculatedAdditionalServices.getD [])
    match req.packages with
    | [] => .error .indexError
    | p0 :: _ =>
      match cd.deliveryPrice, cd.totalCost, req.duration_min, req.duration_max with
      | some dp, some tc, some dmin, some dmax =>
        .ok { city_from := req.sender_city_name
              city_to := req.receiver_city_name
              delivery_price := dp
              total_cost := tc
              request := some req
              services := services
              duration_min := dmin
              duration_max := dmax
              weight := p0.weight }
      | _, _, _, _ => .error .valueError

/-! ## The cargo worker and batch engine -/

/-- The network, as a deterministic oracle from POST bodies to decoded JSON. -/
structure CargoEnv where
  svcResp : RequestForServiceId → ServiceIdResp
  cargoResp : CargoBody → CargoResp

/-- Method `_parse_service_id`, with the network response supplied by the oracle. -/
def parse_service_id (env : CargoEnv) (req : RequestForCargo) :
    Except PyErr (UUID × Option Int × Option Int) :=
  find_service_id req (env.svcResp (serviceIdRequestOf req))

deriving instance DecidableEq for Except

/-- Outcome of the `try:` body of `_worker` on one queue item: either the
route appended on success, or the request object recorded on failure (it is
the same object, whose `service_id`/`duration_*` fields may have been set
in place before the later failure); `priceCall` is the body POSTed to the
price endpoint, when that call was issued. -/
structure ItemResult where
  outcome : Except RequestForCargo Route
  priceCall : Option CargoBody
deriving Repr, DecidableEq

/-- The body of one loop iteration of `CargoParserWithToken._worker`. -/
def processItem (env : CargoEnv) (req : RequestForCargo) : ItemResult :=
  match parse_service_id env req with
  | .error _ => ⟨.error req, none⟩
  | .ok (sid, dmin, dmax) =>
    let req2 := { req with service_id := some sid, duration_min := dmin, duration_max := dmax }
    let body := req2.model_dump
    match extract_data_from_resp_dict (env.cargoResp body) req2 with
    | .ok route => ⟨.ok route, some body⟩
    | .error _ => ⟨.error req2, some body⟩

/-- The mutable instance state of `CargoParserWithToken` touched by parsing. -/
structure CargoState where
  routes_success : Nat
  routes_fail : Nat
  routes_fail_list : List RequestForCargo
  result_list : List Route
deriving Repr, DecidableEq

/-- Instance state right after `CargoParserWithToken.__init__`. -/
def initCargoState : CargoState := ⟨0, 0, [], []⟩

/-- How one worker iteration updates the instance state. -/
def workerStep (env : CargoEnv) (st : CargoState) (req : RequestForCargo) : CargoState :=
  match (processItem env req).outcome with
  | .ok route =>
    { st with result_list := st.result_list ++ [route],
              routes_success := st.routes_success + 1 }
  | .error r =>
    { st with routes_fail := st.routes_fail + 1,
              routes_fail_list := st.routes_fail_list ++ [r] }

/-- Method `_run_cargo_parsing`: every queued request is processed exactly once. -/
def run_cargo_parsing (env : CargoEnv) (st : CargoState)
    (cargo_requests : List RequestForCargo) : CargoState :=
  cargo_requests.foldl (workerStep env) st

/-- Count `range(min(len(cargo_requests), self._thread_limit))`: workers spawned. -/
def numCargoWorkers (thread_limit : Nat) (cargo_requests : List RequestForCargo) : Nat :=
  min cargo_requests.length thread_limit

/-- Method `CargoParserWithToken._retrieve_data`: run the batch, then build the
report from the (never reset) instance counters and `len(cargo_requests)`. -/
def retrieve_data (env : CargoEnv) (st : CargoState)
    (cargo_requests : List RequestForCargo) :
    CargoState × List Route × RequestsReport :=
  let st1 := run_cargo_parsing env st cargo_requests
  (st1, st1.result_list,
    { routes_total := cargo_requests.length
      routes_success := st1.routes_success
      routes_fail := st1.routes_fail
      routes_fail_list := st1.routes_fail_list })


/-! ## City parser (src/domain/cities.py) -/

/-- One candidate of the autocomplete response's `data` list. -/
structure CityItem where
  name : Option String
  uuid : Option String
  fullName : Option String
deriving Repr, DecidableEq

/-- JSON body answered by the city autocomplete endpoint. -/
structure CityResp where
  data : Option (List CityItem)
deriving Repr, DecidableEq

/-- The dict built by `_extract_city_dict`: empty (`none`) or the three keys
`name`/`city_uid`/`full_name`, the latter two holding whatever
`item.get('uuid')`/`item.get('fullName')` returned. -/
structure CityRec where
  name : String
  city_uid : Option String
  full_name : Option String
deriving Repr, DecidableEq

/-- A Python dict with string keys, as an insertion-ordered association
list with unique keys (lookup and update use the first occurrence). -/
def dget (d : List (String × α)) (k : String) : Option α :=
  (d.find? (fun p => p.1 == k)).map (·.2)

def dset : List (String × α) → String → α → List (String × α)
  | [], k, v => [(k, v)]
  | p :: rest, k, v => if p.1 == k then (k, v) :: rest else p :: dset rest k v

/-- Method `CityParser._extract_city_dict`: raise on a falsy `data` list, then fold
over the candidates, each exactly-matching candidate overwriting the
`name`/`city_uid`/`full_name` keys; an empty dict results when no
candidate's `name` equals the queried name. -/
def extract_city_dict (city_data : CityResp) (city_name : String) :
    Except PyErr (Option CityRec) :=
  match city_data.data with
  | none => .error .parseError
  | some [] => .error .parseError
  | some items =>
    .ok (items.foldl
      (fun acc item =>
        if item.name == some city_name then
          some ⟨city_name, item.uuid, item.fullName⟩
        else acc)
      none)

/-- The mutable instance state of `CityParser` touched by parsing
(`_cached_cities` is the shared dict passed to `__init__`). -/
structure CityState where
  cached_cities : List (String × Option CityRec)
  results : List (String × Option CityRec)
  cities_success : Nat
  cities_fail : Nat
  cities_fail_list : List String
deriving Repr, DecidableEq

/-- Instance state right after `CityParser.__init__(cached_cities)`. -/
def initCityState (cached_cities : List (String × Option CityRec)) : CityState :=
  ⟨cached_cities, [], 0, 0, []⟩

/-- The autocomplete endpoint as a deterministic oracle keyed on the
city name interpolated into the URL. -/
structure CityEnv where
  cityResp : String → CityResp

/-- The body of one loop iteration of `CityParser._worker`; the returned
`Bool` records whether `_parse_city` (a network call) was executed. The
cached branch is taken when `self._cached_cities.get(city_name)` is truthy,
i.e. the name is bound to a non-empty record. -/
def cityStep (env : CityEnv) (st : CityState) (city_name : String) :
    CityState × Bool :=
  match dget st.cached_cities city_name with
  | some (some rec) =>
    ({ st with results := dset st.results city_name (some rec),
               cities_success := st.cities_success + 1 }, false)
  | _ =>
    match extract_city_dict (env.cityResp city_name) city_name with
    | .ok city_dict =>
      ({ st with results := dset st.results city_name city_dict,
                 cached_cities := dset st.cached_cities city_name city_dict,
                 cities_success := st.cities_success + 1 }, true)
    | .error _ =>
      ({ st with cities_fail := st.cities_fail + 1,
                 cities_fail_list := st.cities_fail_list ++ [city_name] }, true)

/-- Method `_run_city_parsing`: every queued name is processed exactly once; the
second component lists the names for which a network call was issued. -/
def run_city_parsing (env : CityEnv) (st : CityState) (cities : List String) :
    CityState × List String :=
  cities.foldl
    (fun (acc : CityState × List String) name =>
      let (st1, net) := cityStep env acc.1 name
      (st1, if net then acc.2 ++ [name] else acc.2))
    (st, [])

/-- Count `range(min(len(cities), self._thread_limit))`: workers spawned. -/
def numCityWorkers (thread_limit : Nat) (cities : List String) : Nat :=
  min cities.length thread_limit

/-- Method `CityParser._get_cities_info`: reset `self._results`, run the batch,
then build `models.CitiesReport(routes_total=..., routes_success=...,
routes_fail=..., routes_fail_list=...)`. The first three keyword names do
not exist on `CitiesReport` (its count fields are `cities_*`) and pydantic
ignores unknown keyword arguments, so the counts keep their defaults of 0;
only `routes_fail_list` is actually populated. -/
def get_cities_info (env : CityEnv) (st : CityState) (cities : List String) :
    CityState × List (String × Option CityRec) × CitiesReport :=
  let st0 := { st with results := [] }
  let st1 := (run_city_parsing env st0 cities).1
  (st1, st1.results,
    { cities_total := 0
      cities_success := 0
      cities_fail := 0
      routes_fail_list := st1.cities_fail_list })

/-! ## Derived per-item views of the cargo worker -/

/-- Whether the worker body succeeds on this item (with this oracle). -/
def itemOk (env : CargoEnv) (req : RequestForCargo) : Bool :=
  match (processItem env req).outcome with
  | .ok _ => true
  | .error _ => false

/-- The route appended for this item, when it succeeds. -/
def routeOf? (env : CargoEnv) (req : RequestForCargo) : Option Route :=
  match (processItem env req).outcome with
  | .ok route => some route
  | .error _ => none

/-- The request object recorded in the fail list for this item, when it fails. -/
def failRec? (env : CargoEnv) (req : RequestForCargo) : Option RequestForCargo :=
  match (processItem env req).outcome with
  | .error r => some r
  | .ok _ => none

/-- The fields of a `RequestForCargo` that the worker never writes in place
(everything except `service_id` / `duration_min` / `duration_max`). -/
def eraseServiceFields (r : RequestForCargo) : RequestForCargo :=
  { r with service_id := none, duration_min := none, duration_max := none }

/-! ## Concrete sample inputs (used by counterexamples and witnesses) -/

def req0 : RequestForCargo :=
  { sender_city_id := ⟨1⟩, sender_city_name := "Moscow",
    receiver_city_id := ⟨2⟩, receiver_city_name := "Kazan",
    packages := [⟨10, 10, 10, 5⟩], cargo_type_descr := "express",
    tariff_description := "16:00" }

def goodTariff : Tariff :=
  { mode := some "HOME-HOME", shortDescription := some "16:00",
    serviceId := some "00000000-0000-0000-0000-00000000002a",
    durationMin := some 1, durationMax := some 3 }

/-- An oracle that resolves `req0` and prices it. -/
def envOk : CargoEnv :=
  { svcResp := fun _ => ⟨some [⟨some "express", some [goodTariff]⟩]⟩,
    cargoResp := fun _ => ⟨some ⟨some 100, some 120, some []⟩⟩ }

/-- An oracle whose responses carry no `data` at all: every item fails. -/
def envBad : CargoEnv :=
  { svcResp := fun _ => ⟨none⟩, cargoResp := fun _ => ⟨none⟩ }

/-- The request `req0` after in-place resolution against `envOk`. -/
def req0Resolved : RequestForCargo :=
  { req0 with service_id := some ⟨42⟩, duration_min := some 1, duration_max := some 3 }

def recMoscow : CityRec := ⟨"Moscow", some "mos-uid", some "Moscow, Russia"⟩

/-- Autocomplete oracle always answering with a matching `Moscow` candidate. -/
def cenvMoscow : CityEnv :=
  ⟨fun _ => ⟨some [⟨some "Moscow", some "mos-uid", some "Moscow, Russia"⟩]⟩⟩

/-- Autocomplete oracle matching only `Moscow`; for any other query it
returns a non-empty candidate list with no exactly-matching name. -/
def cenvPartial : CityEnv :=
  ⟨fun name =>
    if name == "Moscow" then
      ⟨some [⟨some "Moscow", some "mos-uid", some "Moscow, Russia"⟩]⟩
    else
      ⟨some [⟨some "Someville", some "s-uid", some "Someville, X"⟩]⟩⟩


/-! ## Batch-run characterization lemmas -/

theorem run_cargo_parsing_eq (env : CargoEnv) (st : CargoState)
    (reqs : List RequestForCargo) :
    run_cargo_parsing env st reqs =
      { routes_success := st.routes_success + reqs.countP (itemOk env)
        routes_fail := st.routes_fail + reqs.countP (fun r => !itemOk env r)
        routes_fail_list := st.routes_fail_list ++ reqs.filterMap (failRec? env)
        result_list := st.result_list ++ reqs.filterMap (routeOf? env) } := by
  induction reqs generalizing st with
  | nil => simp [run_cargo_parsing]
  | cons r rest ih =>
    have h1 : run_cargo_parsing env st (r :: rest)
        = run_cargo_parsing env (workerStep env st r) rest := rfl
    rw [h1, ih]
    cases h : (processItem env r).outcome with
    | ok route =>
      simp [workerStep, h, itemOk, routeOf?, failRec?,
            List.countP_cons, CargoState.mk.injEq, List.append_assoc]
      omega
    | error rq =>
      simp [workerStep, h, itemOk, routeOf?, failRec?,
            List.countP_cons, CargoState.mk.injEq, List.append_assoc]
      omega

theorem countP_bool_split (l : List α) (p : α → Bool) :
    l.countP p + l.countP (fun a => !p a) = l.length := by
  induction l with
  | nil => simp
  | cons a as ih =>
    cases h : p a <;> simp [List.countP_cons, h] <;> omega

/-- The accumulator of `_extract_city_dict` ends up holding the data of the
last exactly-matching candidate (or the initial accumulator if none match). -/
theorem city_fold_last (name : String) (items : List CityItem) (acc : Option CityRec) :
    items.foldl
      (fun acc item =>
        if item.name == some name then
          some ⟨name, item.uuid, item.fullName⟩
        else acc)
      acc
    = (match (items.filter (fun i => i.name == some name)).getLast? with
       | some m => some ⟨name, m.uuid, m.fullName⟩
       | none => acc) := by
  induction items generalizing acc with
  | nil => simp
  | cons i rest ih =>
    rw [List.foldl_cons]
    by_cases hi : (i.name == some name) = true
    · rw [if_pos hi, ih]
      cases hfr : rest.filter (fun i => i.name == some name) with
      | nil => simp [List.filter_cons, hi, hfr]
      | cons y ys =>
        simp only [List.filter_cons, hi, if_true, hfr, List.getLast?_cons_cons]
        cases hm : (y :: ys).getLast? with
        | none => simp at hm
        | some m => rfl
    · rw [if_neg hi, ih]
      simp [List.filter_cons, hi]

/-- Updating a key then reading it back yields the stored value. -/
theorem dget_dset_self (d : List (String × α)) (k : String) (v : α) :
    dget (dset d k v) k = some v := by
  induction d with
  | nil => simp [dget, dset, List.find?]
  | cons p rest ih =>
    by_cases h : (p.1 == k) = true
    · simp [dget, dset, h, List.find?]
    · simp only [dset, h, if_false, Bool.false_eq_true]
      simpa [dget, List.find?, h] using ih


/-! ## C1 -/

/-- C1, as stated, is false on a reused instance: the counters persist
across calls, so on the second `retrieve_data` of the one-element batch
`[req0]` (all items failing) the report has `routes_total = 1` but
`routes_success + routes_fail = 0 + 2`. -/
theorem C1_counterexample :
    ¬ ((retrieve_data envBad (retrieve_data envBad initCargoState [req0]).1 [req0]).2.2.routes_total
        = (retrieve_data envBad (retrieve_data envBad initCargoState [req0]).1 [req0]).2.2.routes_success
          + (retrieve_data envBad (retrieve_data envBad initCargoState [req0]).1 [req0]).2.2.routes_fail) := by
  decide

/-- C1 (amended): whenever the instance counters are zero at the start of
the call — in particular on the first call of a freshly constructed
`CargoParserWithToken` — the report returned by `retrieve_data` satisfies
`routes_total = len(batch)` and `routes_total = routes_success + routes_fail`. -/
theorem C1_report_balanced_when_fresh (env : CargoEnv) (st : CargoState)
    (reqs : List RequestForCargo)
    (hs : st.routes_success = 0) (hf : st.routes_fail = 0) :
    (retrieve_data env st reqs).2.2.routes_total = reqs.length ∧
    (retrieve_data env st reqs).2.2.routes_total =
      (retrieve_data env st reqs).2.2.routes_success
        + (retrieve_data env st reqs).2.2.routes_fail := by
  have hsplit := countP_bool_split reqs (itemOk env)
  simp only [retrieve_data, run_cargo_parsing_eq, hs, hf]
  refine ⟨by trivial, ?_⟩
  simp only [Nat.zero_add]
  omega

/-- C1 witness: the amended statement at a fresh instance and batch `[req0]`. -/
theorem C1_witness :
    (retrieve_data envBad initCargoState [req0]).2.2.routes_total = [req0].length ∧
    (retrieve_data envBad initCargoState [req0]).2.2.routes_total =
      (retrieve_data envBad initCargoState [req0]).2.2.routes_success
        + (retrieve_data envBad initCargoState [req0]).2.2.routes_fail :=
  C1_report_balanced_when_fresh envBad initCargoState [req0] rfl rfl

/-! ## C2 -/

/-- C2 names a real bug: `_get_cities_info` passes the counters to
`CitiesReport` under the keyword names `routes_total` / `routes_success` /
`routes_fail`, but the model fields are `cities_total` / `cities_success` /
`cities_fail`; pydantic ignores the unknown keywords, so the returned
report counts are always 0. On the batch `["Moscow"]`, resolved
successfully (the internal success counter reads 1), the returned report
still reads total 0 / success 0 / fail 0 instead of total 1 / success 1. -/
theorem C2_code_bug :
    (get_cities_info cenvMoscow (initCityState []) ["Moscow"]).1.cities_success = 1 ∧
    (get_cities_info cenvMoscow (initCityState []) ["Moscow"]).2.2 =
      { cities_total := 0, cities_success := 0, cities_fail := 0,
        routes_fail_list := [] } := by
  decide


/-! ## C3 -/

/-- C3, as stated, is false: on the batch `["Moscow", "Unknownville"]`
where the oracle answers the second query with a non-empty candidate list
containing no exactly-matching name, `_extract_city_dict` returns an empty
dict (it only raises on a falsy `data` list), so the worker counts the
name as a success and stores the empty record — nothing is added to the
fail count or fail list. -/
theorem C3_counterexample :
    (run_city_parsing cenvPartial (initCityState []) ["Moscow", "Unknownville"]).1.cities_success = 2 ∧
    (run_city_parsing cenvPartial (initCityState []) ["Moscow", "Unknownville"]).1.cities_fail = 0 ∧
    (run_city_parsing cenvPartial (initCityState []) ["Moscow", "Unknownville"]).1.cities_fail_list = [] ∧
    dget (run_city_parsing cenvPartial (initCityState []) ["Moscow", "Unknownville"]).1.results
      "Unknownville" = some none := by
  decide

/-- C3 (amended): for a name not usably cached, resolution fails (fail
count incremented, name appended to the fail list, results untouched)
exactly when the response's candidate list is missing or empty; when the
list is non-empty but contains no entry whose `name` equals the queried
name exactly, the worker instead records an empty dict for the name in
both results and cache and counts it as a success. -/
theorem C3_no_match_is_empty_success (env : CityEnv) (st : CityState) (name : String)
    (hmiss : dget st.cached_cities name = none ∨ dget st.cached_cities name = some none) :
    (((env.cityResp name).data = none ∨ (env.cityResp name).data = some []) →
       cityStep env st name =
         ({ st with cities_fail := st.cities_fail + 1,
                    cities_fail_list := st.cities_fail_list ++ [name] }, true))
    ∧ (∀ items, (env.cityResp name).data = some items → items ≠ [] →
        (∀ i ∈ items, ¬ i.name = some name) →
        cityStep env st name =
          ({ st with results := dset st.results name none,
                     cached_cities := dset st.cached_cities name none,
                     cities_success := st.cities_success + 1 }, true)) := by
  constructor
  · intro hdata
    rcases hmiss with hm | hm <;> rcases hdata with hd | hd <;>
      simp [cityStep, hm, extract_city_dict, hd]
  · intro items hdata hne hnomatch
    have hfilter : items.filter (fun i => i.name == some name) = [] := by
      simp only [List.filter_eq_nil_iff]
      intro i hi
      simpa using hnomatch i hi
    have hextract : extract_city_dict (env.cityResp name) name = .ok none := by
      cases items with
      | nil => exact absurd rfl hne
      | cons i0 irest =>
        simp only [extract_city_dict, hdata]
        rw [city_fold_last]
        rw [hfilter]
        rfl
    rcases hmiss with hm | hm <;> simp [cityStep, hm, hextract]

/-- C3 witness: both branches of the amended statement at concrete inputs:
an empty-`data` response fails, a non-matching non-empty response is
recorded as an empty-dict success. -/
theorem C3_witness :
    (cityStep ⟨fun _ => ⟨none⟩⟩ (initCityState []) "Unknownville" =
      ({ initCityState [] with cities_fail := 0 + 1,
                               cities_fail_list := [] ++ ["Unknownville"] }, true)) ∧
    (cityStep cenvPartial (initCityState []) "Unknownville" =
      ({ initCityState [] with
           results := dset (initCityState []).results "Unknownville" none,
           cached_cities := dset (initCityState []).cached_cities "Unknownville" none,
           cities_success := 0 + 1 }, true)) := by
  constructor
  · exact (C3_no_match_is_empty_success ⟨fun _ => ⟨none⟩⟩ (initCityState [])
      "Unknownville" (Or.inl rfl)).1 (Or.inl rfl)
  · exact (C3_no_match_is_empty_success cenvPartial (initCityState [])
      "Unknownville" (Or.inl rfl)).2
      [⟨some "Someville", some "s-uid", some "Someville, X"⟩] rfl
      (by decide) (by decide)

/-! ## C4 -/

/-- C4, as stated, is false: the cache check is a truthiness test, so a
name that is present in the shared cache but bound to an empty record
(exactly what a non-matching successful resolution stores, see C3) does
not short-circuit, and a network call is issued for it. -/
theorem C4_counterexample :
    (dget (initCityState [("X", none)]).cached_cities "X").isSome = true ∧
    (cityStep cenvMoscow (initCityState [("X", none)]) "X").2 = true := by
  decide

/-- C4 (amended): a cache hit short-circuits only when the cached record is
non-empty (truthy): then the worker stores that record in results, counts a
success and issues no network call; and after any resolution that stored a
non-empty record, the cache holds it, so repeating the same name issues no
network call and yields the identical record. -/
theorem C4_cache_hit_no_network (env : CityEnv) (st : CityState) (name : String) :
    (∀ rec, dget st.cached_cities name = some (some rec) →
       cityStep env st name =
         ({ st with results := dset st.results name (some rec),
                    cities_success := st.cities_success + 1 }, false))
    ∧ (∀ rec, (dget st.cached_cities name = none ∨ dget st.cached_cities name = some none) →
        extract_city_dict (env.cityResp name) name = .ok (some rec) →
        dget (cityStep env st name).1.cached_cities name = some (some rec) ∧
        (cityStep env (cityStep env st name).1 name).2 = false ∧
        dget (cityStep env (cityStep env st name).1 name).1.results name = some (some rec)) := by
  constructor
  · intro rec hhit
    simp [cityStep, hhit]
  · intro rec hmiss hextract
    have hstep : cityStep env st name =
        ({ st with results := dset st.results name (some rec),
                   cached_cities := dset st.cached_cities name (some rec),
                   cities_success := st.cities_success + 1 }, true) := by
      rcases hmiss with hm | hm <;> simp [cityStep, hm, hextract]
    have hcache : dget (cityStep env st name).1.cached_cities name = some (some rec) := by
      rw [hstep]
      exact dget_dset_self _ _ _
    refine ⟨hcache, ?_, ?_⟩
    · rw [hstep]
      simp [cityStep, dget_dset_self]
    · rw [hstep]
      simp [cityStep, dget_dset_self]

/-- C4 witness: resolving `Moscow` against an empty cache stores its record;
the repeat lookup issues no network call and returns the identical record. -/
theorem C4_witness :
    dget (cityStep cenvMoscow (initCityState []) "Moscow").1.cached_cities "Moscow"
      = some (some recMoscow) ∧
    (cityStep cenvMoscow (cityStep cenvMoscow (initCityState []) "Moscow").1 "Moscow").2 = false ∧
    dget (cityStep cenvMoscow (cityStep cenvMoscow (initCityState []) "Moscow").1 "Moscow").1.results
      "Moscow" = some (some recMoscow) :=
  (C4_cache_hit_no_network cenvMoscow (initCityState []) "Moscow").2 recMoscow
    (Or.inl rfl) (by decide)


/-! ## C5 -/

/-- The price endpoint is called exactly when service-id resolution
succeeded, and then with the body serialized from the updated request. -/
theorem processItem_priceCall (env : CargoEnv) (req : RequestForCargo) :
    (processItem env req).priceCall =
      match parse_service_id env req with
      | .error _ => none
      | .ok (sid, dmin, dmax) =>
        some ({ req with service_id := some sid, duration_min := dmin,
                         duration_max := dmax } : RequestForCargo).model_dump := by
  unfold processItem
  cases parse_service_id env req with
  | error e => rfl
  | ok t =>
    obtain ⟨sid, dmin, dmax⟩ := t
    dsimp only
    split <;> rfl

/-- C5: whenever the worker issues a price call for an item, service-id
resolution already succeeded for that item, and the serialized body carries
a non-null `serviceId` equal to the resolved UUID rendered as a string. -/
theorem C5_price_call_carries_service_id (env : CargoEnv) (req : RequestForCargo)
    (body : CargoBody) (h : (processItem env req).priceCall = some body) :
    ∃ u dmin dmax,
      parse_service_id env req = .ok (u, dmin, dmax) ∧
      body.serviceId = some (uuidStr u) := by
  rw [processItem_priceCall] at h
  cases hp : parse_service_id env req with
  | error e => rw [hp] at h; exact absurd h (by simp)
  | ok t =>
    obtain ⟨u, dmin, dmax⟩ := t
    rw [hp] at h
    simp only [Option.some.injEq] at h
    exact ⟨u, dmin, dmax, rfl, by rw [← h]; rfl⟩

/-- C5 witness: `envOk` resolves `req0` to service id 42 and the issued
price-call body carries it as a string. -/
theorem C5_witness :
    ∃ u dmin dmax,
      parse_service_id envOk req0 = .ok (u, dmin, dmax) ∧
      req0Resolved.model_dump.serviceId = some (uuidStr u) :=
  C5_price_call_carries_service_id envOk req0 req0Resolved.model_dump (by decide)

/-! ## C6 -/

/-- The request object recorded on failure differs from the submitted item
at most in the worker's own in-place writes (`service_id`, durations). -/
theorem processItem_error_erase (env : CargoEnv) (r rq : RequestForCargo)
    (h : (processItem env r).outcome = .error rq) :
    eraseServiceFields rq = eraseServiceFields r := by
  unfold processItem at h
  cases hp : parse_service_id env r with
  | error e =>
    rw [hp] at h
    simp only [Except.error.injEq] at h
    rw [← h]
  | ok t =>
    obtain ⟨sid, dmin, dmax⟩ := t
    rw [hp] at h
    dsimp only at h
    split at h
    · exact absurd h (by simp)
    · simp only [Except.error.injEq] at h
      rw [← h]
      rfl

/-- C6: any exception while processing an item is absorbed at the worker
boundary: over a whole batch, the fail counter grows by exactly the number
of failing items, the fail list is extended, in order, by exactly one
record per failing item — the failing item's own request object (equal to
it outside the worker's in-place service-field writes) — and the remaining
items are still processed normally (success counter and result list grow
by exactly the successful items' contributions); the fold over the full
batch returning at all models the queue being drained. -/
theorem C6_failure_isolation (env : CargoEnv) (st : CargoState)
    (reqs : List RequestForCargo) (r rec : RequestForCargo)
    (hr : r ∈ reqs) (hfail : failRec? env r = some rec) :
    (run_cargo_parsing env st reqs).routes_fail
      = st.routes_fail + reqs.countP (fun x => !itemOk env x) ∧
    (run_cargo_parsing env st reqs).routes_fail_list
      = st.routes_fail_list ++ reqs.filterMap (failRec? env) ∧
    rec ∈ (run_cargo_parsing env st reqs).routes_fail_list ∧
    eraseServiceFields rec = eraseServiceFields r ∧
    (run_cargo_parsing env st reqs).routes_success
      = st.routes_success + reqs.countP (itemOk env) ∧
    (run_cargo_parsing env st reqs).result_list
      = st.result_list ++ reqs.filterMap (routeOf? env) := by
  have hchar := run_cargo_parsing_eq env st reqs
  have herase : eraseServiceFields rec = eraseServiceFields r := by
    unfold failRec? at hfail
    cases ho : (processItem env r).outcome with
    | ok route => rw [ho] at hfail; exact absurd hfail (by simp)
    | error rq =>
      rw [ho] at hfail
      simp only [Option.some.injEq] at hfail
      rw [← hfail]
      exact processItem_error_erase env r rq ho
  refine ⟨by rw [hchar], by rw [hchar], ?_, herase, by rw [hchar], by rw [hchar]⟩
  rw [hchar]
  exact List.mem_append_right _ (List.mem_filterMap.2 ⟨r, hr, hfail⟩)

/-- C6 witness: the batch `[req0]` against the all-failing oracle. -/
theorem C6_witness :
    (run_cargo_parsing envBad initCargoState [req0]).routes_fail
      = initCargoState.routes_fail + [req0].countP (fun x => !itemOk envBad x) ∧
    (run_cargo_parsing envBad initCargoState [req0]).routes_fail_list
      = initCargoState.routes_fail_list ++ [req0].filterMap (failRec? envBad) ∧
    req0 ∈ (run_cargo_parsing envBad initCargoState [req0]).routes_fail_list ∧
    eraseServiceFields req0 = eraseServiceFields req0 ∧
    (run_cargo_parsing envBad initCargoState [req0]).routes_success
      = initCargoState.routes_success + [req0].countP (itemOk envBad) ∧
    (run_cargo_parsing envBad initCargoState [req0]).result_list
      = initCargoState.result_list ++ [req0].filterMap (routeOf? envBad) :=
  C6_failure_isolation envBad initCargoState [req0] req0 req0
    (by decide) (by decide)

/-! ## C8 -/

/-- C8, as stated, is false on a reused instance: after one successful
one-item batch, a zero-item `retrieve_data` call on the same instance
returns the accumulated (non-empty) result list and a report whose success
count is the accumulated 1, not 0 — the counters and result list are set
only in `__init__` and never reset. -/
theorem C8_counterexample :
    (retrieve_data envOk (retrieve_data envOk initCargoState [req0]).1 []).2.1 ≠ [] ∧
    (retrieve_data envOk (retrieve_data envOk initCargoState [req0]).1 []).2.2.routes_success ≠ 0 := by
  decide

/-- C8 (amended): for every batch, the number of spawned workers is
`min(thread_limit, len(items))` — in particular exactly 3 workers for 3
items under a limit of 10, and no workers for a zero-item batch; and a
zero-item batch returns an empty result together with a report whose
total, success and fail counts are all zero, provided the cargo instance's
result list and counters are empty/zero at call start (e.g. on a fresh
instance) — on a reused instance they are returned accumulated. The city
parser's zero-item call needs no such hypothesis: its results dict is
reset on every call and the counts of its returned report are always zero
(the C2 constructor-keyword bug). -/
theorem C8_workers_min_and_fresh_zero_batch (tl : Nat)
    (reqs : List RequestForCargo) (cities : List String)
    (env : CargoEnv) (cenv : CityEnv) (st : CargoState) (cst : CityState)
    (hs : st.routes_success = 0) (hf : st.routes_fail = 0)
    (hres : st.result_list = []) :
    numCargoWorkers tl reqs = min tl reqs.length ∧
    numCityWorkers tl cities = min tl cities.length ∧
    numCargoWorkers 10 [req0, req0, req0] = 3 ∧
    numCargoWorkers tl [] = 0 ∧
    numCityWorkers tl [] = 0 ∧
    (retrieve_data env st []).2.1 = [] ∧
    (retrieve_data env st []).2.2.routes_total = 0 ∧
    (retrieve_data env st []).2.2.routes_success = 0 ∧
    (retrieve_data env st []).2.2.routes_fail = 0 ∧
    (get_cities_info cenv cst []).2.1 = [] ∧
    (get_cities_info cenv cst []).2.2.cities_total = 0 ∧
    (get_cities_info cenv cst []).2.2.cities_success = 0 ∧
    (get_cities_info cenv cst []).2.2.cities_fail = 0 :=
  ⟨Nat.min_comm _ _, Nat.min_comm _ _, rfl, by simp [numCargoWorkers],
   by simp [numCityWorkers], hres, rfl, hs, hf, rfl, rfl, rfl, rfl⟩

/-- C8 witness: the amended statement at fresh instances. -/
theorem C8_witness :
    numCargoWorkers 10 [req0] = min 10 [req0].length ∧
    numCityWorkers 10 ["Moscow"] = min 10 ["Moscow"].length ∧
    numCargoWorkers 10 [req0, req0, req0] = 3 ∧
    numCargoWorkers 10 [] = 0 ∧
    numCityWorkers 10 [] = 0 ∧
    (retrieve_data envBad initCargoState []).2.1 = [] ∧
    (retrieve_data envBad initCargoState []).2.2.routes_total = 0 ∧
    (retrieve_data envBad initCargoState []).2.2.routes_success = 0 ∧
    (retrieve_data envBad initCargoState []).2.2.routes_fail = 0 ∧
    (get_cities_info cenvMoscow (initCityState []) []).2.1 = [] ∧
    (get_cities_info cenvMoscow (initCityState []) []).2.2.cities_total = 0 ∧
    (get_cities_info cenvMoscow (initCityState []) []).2.2.cities_success = 0 ∧
    (get_cities_info cenvMoscow (initCityState []) []).2.2.cities_fail = 0 :=
  C8_workers_min_and_fresh_zero_batch 10 [req0] ["Moscow"] envBad cenvMoscow
    initCargoState (initCityState []) rfl rfl rfl

/-! ## C10 -/

/-- C10: the result list, counters and fail list are instance state that is
never reset: a second `retrieve_data` call on the same instance returns the
first call's result list extended with the second batch's routes, its
report's success/fail counts and fail list extend the first report's, and
only `routes_total` is computed from the second batch alone. -/
theorem C10_state_persists (env : CargoEnv) (st : CargoState)
    (b1 b2 : List RequestForCargo) (st1 st2 : CargoState)
    (res1 res2 : List Route) (rep1 rep2 : RequestsReport)
    (h1 : retrieve_data env st b1 = (st1, res1, rep1))
    (h2 : retrieve_data env st1 b2 = (st2, res2, rep2)) :
    res2 = res1 ++ b2.filterMap (routeOf? env) ∧
    rep2.routes_success = rep1.routes_success + b2.countP (itemOk env) ∧
    rep2.routes_fail = rep1.routes_fail + b2.countP (fun x => !itemOk env x) ∧
    rep2.routes_fail_list = rep1.routes_fail_list ++ b2.filterMap (failRec? env) ∧
    rep2.routes_total = b2.length := by
  simp only [retrieve_data, Prod.mk.injEq] at h1 h2
  obtain ⟨hst1, hres1, hrep1⟩ := h1
  obtain ⟨hst2, hres2, hrep2⟩ := h2
  subst hst1 hst2 hres1 hres2 hrep1 hrep2
  rw [run_cargo_parsing_eq env (run_cargo_parsing env st b1) b2]
  simp

/-- C10 witness: two one-element batches against the all-failing oracle. -/
theorem C10_witness :
    (retrieve_data envBad (retrieve_data envBad initCargoState [req0]).1 [req0]).2.1
      = (retrieve_data envBad initCargoState [req0]).2.1
          ++ [req0].filterMap (routeOf? envBad) ∧
    (retrieve_data envBad (retrieve_data envBad initCargoState [req0]).1 [req0]).2.2.routes_success
      = (retrieve_data envBad initCargoState [req0]).2.2.routes_success
          + [req0].countP (itemOk envBad) ∧
    (retrieve_data envBad (retrieve_data envBad initCargoState [req0]).1 [req0]).2.2.routes_fail
      = (retrieve_data envBad initCargoState [req0]).2.2.routes_fail
          + [req0].countP (fun x => !itemOk envBad x) ∧
    (retrieve_data envBad (retrieve_data envBad initCargoState [req0]).1 [req0]).2.2.routes_fail_list
      = (retrieve_data envBad initCargoState [req0]).2.2.routes_fail_list
          ++ [req0].filterMap (failRec? envBad) ∧
    (retrieve_data envBad (retrieve_data envBad initCargoState [req0]).1 [req0]).2.2.routes_total
      = [req0].length :=
  C10_state_persists envBad initCargoState [req0] [req0] _ _ _ _ _ _ rfl rfl


/-! ## C7 -/

/-- A group with a different description, or one whose tariffs all fail the
inner condition, is skipped by the group loop. -/
theorem find_in_groups_skip (req : RequestForCargo) (g : ServiceGroup)
    (rest : List ServiceGroup)
    (h : g.description = some req.cargo_type_descr →
         ∃ ts, g.tariffs = some ts ∧ ts.find? (tariff_matches req) = none) :
    find_in_groups req (g :: rest) = find_in_groups req rest := by
  by_cases hd : g.description = some req.cargo_type_descr
  · obtain ⟨ts, hts, hfind⟩ := h hd
    simp [find_in_groups, hd, hts, hfind]
  · simp [find_in_groups, hd]

/-- When every group is skipped, the loop falls through to the final raise. -/
theorem find_in_groups_all_skip (req : RequestForCargo) (gs : List ServiceGroup)
    (h : ∀ g ∈ gs, g.description = some req.cargo_type_descr →
         ∃ ts, g.tariffs = some ts ∧ ts.find? (tariff_matches req) = none) :
    find_in_groups req gs = .error .noMatch := by
  induction gs with
  | nil => rfl
  | cons g rest ih =>
    rw [find_in_groups_skip req g rest (h g (by simp))]
    exact ih fun g' hg' => h g' (by simp [hg'])

/-- A skipped-over block of groups does not affect the loop's result. -/
theorem find_in_groups_append (req : RequestForCargo) (gs1 rest : List ServiceGroup)
    (h : ∀ g ∈ gs1, g.description = some req.cargo_type_descr →
         ∃ ts, g.tariffs = some ts ∧ ts.find? (tariff_matches req) = none) :
    find_in_groups req (gs1 ++ rest) = find_in_groups req rest := by
  induction gs1 with
  | nil => rfl
  | cons g gs ih =>
    rw [List.cons_append, find_in_groups_skip req g (gs ++ rest) (h g (by simp))]
    exact ih fun g' hg' => h g' (by simp [hg'])

/-- The first matching tariff of a matching group is returned. -/
theorem find_in_groups_found (req : RequestForCargo) (g : ServiceGroup)
    (rest : List ServiceGroup) (ts : List Tariff) (t : Tariff) (u : UUID)
    (hd : g.description = some req.cargo_type_descr)
    (hts : g.tariffs = some ts)
    (hfind : ts.find? (tariff_matches req) = some t)
    (hu : pyUUIDOfOpt t.serviceId = .ok u) :
    find_in_groups req (g :: rest) = .ok (u, t.durationMin, t.durationMax) := by
  simp [find_in_groups, hd, hts, hfind, hu]

/-- On a non-empty `data` list, `_parse_service_id` is the group loop. -/
theorem find_service_id_cons (req : RequestForCargo) (resp : ServiceIdResp)
    (groups : List ServiceGroup) (hdata : resp.data = some groups)
    (hne : groups ≠ []) :
    find_service_id req resp = find_in_groups req groups := by
  cases groups with
  | nil => exact absurd rfl hne
  | cons g gs => simp [find_service_id, hdata]

/-- C7: service-id resolution raises on a missing/empty `data` list; raises
when no group matches the request's cargo-type descriptor or no tariff of
any matching group satisfies both the mode and the tariff-descriptor
condition; and returns `(service_id, duration_min, duration_max)` taken
from the first satisfying tariff of the first matching group that has one
(given that its `serviceId` field parses as a UUID). -/
theorem C7_parse_service_id (req : RequestForCargo) (resp : ServiceIdResp) :
    ((resp.data = none ∨ resp.data = some []) →
      find_service_id req resp = .error .parseError)
    ∧ (∀ groups, resp.data = some groups → groups ≠ [] →
        (∀ g ∈ groups, g.description = some req.cargo_type_descr →
          ∃ ts, g.tariffs = some ts ∧ ts.find? (tariff_matches req) = none) →
        find_service_id req resp = .error .noMatch)
    ∧ (∀ gs1 g gs2 ts t s u, resp.data = some (gs1 ++ g :: gs2) →
        (∀ g' ∈ gs1, g'.description = some req.cargo_type_descr →
          ∃ ts', g'.tariffs = some ts' ∧ ts'.find? (tariff_matches req) = none) →
        g.description = some req.cargo_type_descr →
        g.tariffs = some ts →
        ts.find? (tariff_matches req) = some t →
        t.serviceId = some s →
        pyUUID s = some u →
        find_service_id req resp = .ok (u, t.durationMin, t.durationMax)) := by
  refine ⟨?_, ?_, ?_⟩
  · rintro (h | h) <;> simp [find_service_id, h]
  · intro groups hdata hne hall
    rw [find_service_id_cons req resp groups hdata hne]
    exact find_in_groups_all_skip req groups hall
  · intro gs1 g gs2 ts t s u hdata hskip hd hts hfind hs hu
    rw [find_service_id_cons req resp (gs1 ++ g :: gs2) hdata (by simp)]
    rw [find_in_groups_append req gs1 (g :: gs2) hskip]
    refine find_in_groups_found req g gs2 ts t u hd hts hfind ?_
    rw [hs]
    simp [pyUUIDOfOpt, hu]

/-- C7 witness: the positive branch at `req0` against a one-group,
one-tariff response whose `serviceId` is the canonical string of 42. -/
theorem C7_witness :
    find_service_id req0 ⟨some [⟨some "express", some [goodTariff]⟩]⟩
      = .ok (⟨42⟩, goodTariff.durationMin, goodTariff.durationMax) :=
  (C7_parse_service_id req0 ⟨some [⟨some "express", some [goodTariff]⟩]⟩).2.2
    [] ⟨some "express", some [goodTariff]⟩ [] [goodTariff] goodTariff
    "00000000-0000-0000-0000-00000000002a" ⟨42⟩ rfl (by simp) rfl rfl
    (by decide) rfl (by decide)

/-! ## C9 -/

/-- C9: when two or more candidates match the queried name exactly, the
extracted record carries the `uuid` and `fullName` of the **last** matching
candidate — each later match overwrites the earlier one. -/
theorem C9_last_match_wins (resp : CityResp) (name : String)
    (items : List CityItem) (m : CityItem)
    (hdata : resp.data = some items)
    (hlen : 2 ≤ (items.filter (fun i => i.name == some name)).length)
    (hlast : (items.filter (fun i => i.name == some name)).getLast? = some m) :
    extract_city_dict resp name = .ok (some ⟨name, m.uuid, m.fullName⟩) := by
  cases items with
  | nil => simp at hlen
  | cons i0 irest =>
    simp only [extract_city_dict, hdata]
    rw [city_fold_last, hlast]

/-- C9 witness: two exactly-matching candidates; the second one's data wins. -/
theorem C9_witness :
    extract_city_dict
      ⟨some [⟨some "N", some "u1", some "f1"⟩, ⟨some "N", some "u2", some "f2"⟩]⟩ "N"
      = .ok (some ⟨"N", some "u2", some "f2"⟩) :=
  C9_last_match_wins
    ⟨some [⟨some "N", some "u1", some "f1"⟩, ⟨some "N", some "u2", some "f2"⟩]⟩ "N"
    [⟨some "N", some "u1", some "f1"⟩, ⟨some "N", some "u2", some "f2"⟩]
    ⟨some "N", some "u2", some "f2"⟩ rfl (by decide) (by decide)

end CargoParser
